import Mathlib

/-!
Verification of the mpesa-go client (freelancer254/mpesa-go).

This file gives a shallow embedding of the repository's code:

* `utils` package (`CheckKeys`, `GetTimestamp`, `EncodePassword`);
* `types` package (request payloads as string-keyed maps, response structs,
  the `STKPushError` envelope);
* `client` package (`Mpesa` client state, `setHeaders`, and the ten
  payload-carrying operations `STKPush`, `RegisterURL`, `SimulateTransaction`,
  `ReverseTransaction`, `QueryTransaction`, `GetBalance`, `B2CSend`,
  `B2BSend`, `RegisterPullAPI`, `PullTransactions`).

Go maps are modelled as association lists with at most one binding per key
(lookup takes the first binding, insertion replaces in place, deletion removes
every binding of the key).  The system clock is passed explicitly as a `Clock`
value.  The HTTP transport is modelled as a function from requests to
responses; each operation returns, besides the decoded result, the list of
requests it actually sent, so that "no network call was made" is expressible.
JSON bodies are modelled by an inductive `Json` type; serialisation of a map
keeps the map's entries (JSON object key order is abstracted away, only the
key/value content matters to the properties proved here).
-/

namespace MpesaGo

/-! ## Association-list model of Go string-keyed maps -/

/-- Lookup in a Go map: the value bound to `k`, if any. -/
def lookupKV {α : Type} : List (String × α) → String → Option α
  | [], _ => none
  | (k', v) :: rest, k => if k' = k then some v else lookupKV rest k

/-- Insertion `m[k] = v` in a Go map: replaces the binding of `k` if present,
otherwise appends it. -/
def insertKV {α : Type} : List (String × α) → String → α → List (String × α)
  | [], k, v => [(k, v)]
  | (k', v') :: rest, k, v =>
    if k' = k then (k, v) :: rest else (k', v') :: insertKV rest k v

/-- Deletion `delete(m, k)` in a Go map: removes every binding of `k`. -/
def eraseKV {α : Type} : List (String × α) → String → List (String × α)
  | [], _ => []
  | (k', v') :: rest, k =>
    if k' = k then eraseKV rest k else (k', v') :: eraseKV rest k

/-! ## utils package -/

/-- `utils.CheckKeys` (tail of the loop): iterate over the remaining required
keys, copying each present key into `cleaned` and failing on the first key
absent from `payload`. -/
def CheckKeysAux {α : Type} (payload : List (String × α)) :
    List String → List (String × α) → Except String (List (String × α))
  | [], cleaned => .ok cleaned
  | key :: rest, cleaned =>
    match lookupKV payload key with
    | some value => CheckKeysAux payload rest (insertKV cleaned key value)
    | none => .error ("missing key: " ++ key)

/-- `utils.CheckKeys`: validates that the required keys are present in the
payload, returning a fresh map holding exactly the required keys, or the error
`missing key: k` for the first missing key `k`. -/
def CheckKeys {α : Type} (requiredKeys : List String)
    (payload : List (String × α)) : Except String (List (String × α)) :=
  CheckKeysAux payload requiredKeys []

/-- An injected wall-clock value (models the result of `time.Now()`). -/
structure Clock where
  year : Nat
  month : Nat
  day : Nat
  hour : Nat
  minute : Nat
  second : Nat

/-- Two-digit zero-padded decimal rendering, as produced by Go's time
formatting for the `01 02 15 04 05` components. -/
def pad2 (n : Nat) : String :=
  ⟨[Nat.digitChar (n / 10 % 10), Nat.digitChar (n % 10)]⟩

/-- Four-digit zero-padded decimal rendering, as produced by Go's time
formatting for the `2006` year component. -/
def pad4 (n : Nat) : String :=
  ⟨[Nat.digitChar (n / 1000 % 10), Nat.digitChar (n / 100 % 10),
    Nat.digitChar (n / 10 % 10), Nat.digitChar (n % 10)]⟩

/-- `utils.GetTimestamp`: the clock value formatted with Go layout
`20060102150405`, i.e. the 14-digit string YYYYMMDDHHMMSS. -/
def GetTimestamp (clock : Clock) : String :=
  pad4 clock.year ++ pad2 clock.month ++ pad2 clock.day ++
    pad2 clock.hour ++ pad2 clock.minute ++ pad2 clock.second

/-- The byte string of an ASCII string (models Go's `[]byte(s)` conversion;
for the ASCII field values used by this API, UTF-8 bytes coincide with code
points). -/
def asciiBytes (s : String) : List Nat :=
  s.data.map Char.toNat

/-- The standard base64 alphabet, models `encoding/base64.StdEncoding`. -/
def base64Alphabet : List Char :=
  "ABCDEFGHIJKLMNOPQRSTUVWXYZabcdefghijklmnopqrstuvwxyz0123456789+/".data

/-- The base64 digit for a 6-bit group. -/
def base64Char (n : Nat) : Char :=
  base64Alphabet.getD n 'A'

/-- Standard base64 encoding of a byte list, three input bytes per four
output characters, `=`-padded (models
`encoding/base64.StdEncoding.EncodeToString`). -/
def base64EncodeList : List Nat → List Char
  | [] => []
  | [a] => [base64Char (a / 4), base64Char (a % 4 * 16), '=', '=']
  | [a, b] => [base64Char (a / 4), base64Char (a % 4 * 16 + b / 16),
      base64Char (b % 16 * 4), '=']
  | a :: b :: c :: rest =>
    base64Char (a / 4) :: base64Char (a % 4 * 16 + b / 16) ::
      base64Char (b % 16 * 4 + c / 64) :: base64Char (c % 64) ::
        base64EncodeList rest

/-- Standard base64 encoding of a byte list, as a string. -/
def base64EncodeStr (bs : List Nat) : String :=
  ⟨base64EncodeList bs⟩

/-- `utils.EncodePassword`: concatenates shortcode, passkey and the current
timestamp, then base64-encodes the bytes of the concatenation. -/
def EncodePassword (clock : Clock) (shortcode passkey : String) : String :=
  let timestamp := GetTimestamp clock
  let data := shortcode ++ passkey ++ timestamp
  base64EncodeStr (asciiBytes data)

/-! ## JSON values and payload values -/

/-- A JSON value (model of the bodies handled by `encoding/json`). -/
inductive Json where
  | null : Json
  | str : String → Json
  | num : Int → Json
  | bool : Bool → Json
  | arr : List Json → Json
  | obj : List (String × Json) → Json

/-- A dynamically-typed Go payload value (`interface\x7b\x7d` in the map-based
request types); only the shapes that occur in payloads are modelled. -/
inductive GoValue where
  | str : String → GoValue
  | num : Int → GoValue
deriving DecidableEq

/-- The type assertion `v.(string)` with the `ok` flag discarded: a string
yields itself, anything else (including an absent key, i.e. `none`) yields
the empty string. -/
def goStr : Option GoValue → String
  | some (.str s) => s
  | _ => ""

/-- JSON serialisation of a payload value. -/
def GoValue.toJson : GoValue → Json
  | .str s => .str s
  | .num n => .num n

/-- `json.Marshal` of a Go map payload: a JSON object holding exactly the
map's entries (key order abstracted). -/
def marshalMap (m : List (String × GoValue)) : Json :=
  .obj (m.map fun p => (p.1, p.2.toJson))

/-- Key lookup in a JSON object; `none` on non-objects. -/
def jsonLookup (j : Json) (k : String) : Option Json :=
  match j with
  | .obj fields => lookupKV fields k
  | _ => none

/-! ## types package: response structs and their decoders

The decoders model `json.NewDecoder(resp.Body).Decode(&response)` for the
struct shapes declared in `types/types.go`: the top level must be a JSON
object (or `null`, which leaves the zero value); a declared field that is
absent or `null` keeps its zero value; a declared field bound to a value of
the wrong kind is a decode error; unknown keys are ignored. -/

/-- Decode a string-typed struct field named `name`. -/
def getStr (fields : List (String × Json)) (name : String) :
    Except String String :=
  match lookupKV fields name with
  | none => .ok ""
  | some (.str s) => .ok s
  | some .null => .ok ""
  | some _ => .error ("cannot unmarshal field " ++ name)

/-- Decode an integer-typed struct field named `name`. -/
def getInt (fields : List (String × Json)) (name : String) :
    Except String Int :=
  match lookupKV fields name with
  | none => .ok 0
  | some (.num n) => .ok n
  | some .null => .ok 0
  | some _ => .error ("cannot unmarshal field " ++ name)

/-- `types.STKPushResponse`. -/
structure STKPushResponse where
  MerchantRequestID : String
  ResponseCode : String
  CheckoutRequestID : String
  ResponseDescription : String
  CustomerMessage : String
deriving DecidableEq

/-- Decoder for `types.STKPushResponse`. -/
def decodeSTKPushResponse (j : Json) : Except String STKPushResponse :=
  match j with
  | .obj fields => do
    let merchantRequestID ← getStr fields "MerchantRequestID"
    let responseCode ← getStr fields "ResponseCode"
    let checkoutRequestID ← getStr fields "CheckoutRequestID"
    let responseDescription ← getStr fields "ResponseDescription"
    let customerMessage ← getStr fields "CustomerMessage"
    pure ⟨merchantRequestID, responseCode, checkoutRequestID,
      responseDescription, customerMessage⟩
  | .null => .ok ⟨"", "", "", "", ""⟩
  | _ => .error "cannot unmarshal response"

/-- The inner `stkCallback` struct of `types.STKPushError`. -/
structure STKPushErrorCallback where
  MerchantRequestID : String
  CheckoutRequestID : String
  ResultCode : String
  ResultDesc : String
deriving DecidableEq

/-- The `Body` struct of `types.STKPushError`. -/
structure STKPushErrorBody where
  stkCallback : STKPushErrorCallback
deriving DecidableEq

/-- `types.STKPushError`: the nested callback-error envelope declared for the
push-payment operation. -/
structure STKPushError where
  Body : STKPushErrorBody
deriving DecidableEq

/-- Decoder for the inner callback struct of `types.STKPushError`. -/
def decodeSTKPushErrorCallback (j : Json) :
    Except String STKPushErrorCallback :=
  match j with
  | .obj fields => do
    let merchantRequestID ← getStr fields "MerchantRequestID"
    let checkoutRequestID ← getStr fields "CheckoutRequestID"
    let resultCode ← getStr fields "ResultCode"
    let resultDesc ← getStr fields "ResultDesc"
    pure ⟨merchantRequestID, checkoutRequestID, resultCode, resultDesc⟩
  | .null => .ok ⟨"", "", "", ""⟩
  | _ => .error "cannot unmarshal field stkCallback"

/-- Decoder for `types.STKPushError`. -/
def decodeSTKPushError (j : Json) : Except String STKPushError :=
  match j with
  | .obj fields =>
    match lookupKV fields "Body" with
    | none => .ok ⟨⟨"", "", "", ""⟩⟩
    | some .null => .ok ⟨⟨"", "", "", ""⟩⟩
    | some (.obj bodyFields) =>
      match lookupKV bodyFields "stkCallback" with
      | none => .ok ⟨⟨"", "", "", ""⟩⟩
      | some cb => do
        let callback ← decodeSTKPushErrorCallback cb
        pure ⟨⟨callback⟩⟩
    | some _ => .error "cannot unmarshal field Body"
  | .null => .ok ⟨⟨"", "", "", ""⟩⟩
  | _ => .error "cannot unmarshal response"

/-- `types.RegisterURLResponse`. -/
structure RegisterURLResponse where
  OriginatorCoversationID : String
  ResultCode : String
  ResponseDescription : String
deriving DecidableEq

/-- Decoder for `types.RegisterURLResponse`. -/
def decodeRegisterURLResponse (j : Json) : Except String RegisterURLResponse :=
  match j with
  | .obj fields => do
    let originatorCoversationID ← getStr fields "OriginatorCoversationID"
    let resultCode ← getStr fields "ResultCode"
    let responseDescription ← getStr fields "ResponseDescription"
    pure ⟨originatorCoversationID, resultCode, responseDescription⟩
  | .null => .ok ⟨"", "", ""⟩
  | _ => .error "cannot unmarshal response"

/-- `types.SimulateTransactionResponse`. -/
structure SimulateTransactionResponse where
  ConversationID : String
  OriginatorConversationID : String
  ResponseDescription : String
deriving DecidableEq

/-- Decoder for `types.SimulateTransactionResponse`. -/
def decodeSimulateTransactionResponse (j : Json) :
    Except String SimulateTransactionResponse :=
  match j with
  | .obj fields => do
    let conversationID ← getStr fields "ConversationID"
    let originatorConversationID ← getStr fields "OriginatorConversationID"
    let responseDescription ← getStr fields "ResponseDescription"
    pure ⟨conversationID, originatorConversationID, responseDescription⟩
  | .null => .ok ⟨"", "", ""⟩
  | _ => .error "cannot unmarshal response"

/-- `types.ReverseTransactionResponse`. -/
structure ReverseTransactionResponse where
  OriginatorConversationID : String
  ConversationID : String
  ResponseCode : String
  ResponseDescription : String
deriving DecidableEq

/-- Decoder for `types.ReverseTransactionResponse`. -/
def decodeReverseTransactionResponse (j : Json) :
    Except String ReverseTransactionResponse :=
  match j with
  | .obj fields => do
    let originatorConversationID ← getStr fields "OriginatorConversationID"
    let conversationID ← getStr fields "ConversationID"
    let responseCode ← getStr fields "ResponseCode"
    let responseDescription ← getStr fields "ResponseDescription"
    pure ⟨originatorConversationID, conversationID, responseCode,
      responseDescription⟩
  | .null => .ok ⟨"", "", "", ""⟩
  | _ => .error "cannot unmarshal response"

/-- `types.QueryTransactionResponse`. -/
structure QueryTransactionResponse where
  ConversationID : String
  OriginatorConversationID : String
  ResponseDescription : String
  ResponseCode : String
deriving DecidableEq

/-- Decoder for `types.QueryTransactionResponse`. -/
def decodeQueryTransactionResponse (j : Json) :
    Except String QueryTransactionResponse :=
  match j with
  | .obj fields => do
    let conversationID ← getStr fields "ConversationID"
    let originatorConversationID ← getStr fields "OriginatorConversationID"
    let responseDescription ← getStr fields "ResponseDescription"
    let responseCode ← getStr fields "ResponseCode"
    pure ⟨conversationID, originatorConversationID, responseDescription,
      responseCode⟩
  | .null => .ok ⟨"", "", "", ""⟩
  | _ => .error "cannot unmarshal response"

/-- `types.GetBalanceResponse`. -/
structure GetBalanceResponse where
  ConversationID : String
  OriginatorConversationID : String
  ResponseDescription : String
  ResponseCode : String
deriving DecidableEq

/-- Decoder for `types.GetBalanceResponse`. -/
def decodeGetBalanceResponse (j : Json) : Except String GetBalanceResponse :=
  match j with
  | .obj fields => do
    let conversationID ← getStr fields "ConversationID"
    let originatorConversationID ← getStr fields "OriginatorConversationID"
    let responseDescription ← getStr fields "ResponseDescription"
    let responseCode ← getStr fields "ResponseCode"
    pure ⟨conversationID, originatorConversationID, responseDescription,
      responseCode⟩
  | .null => .ok ⟨"", "", "", ""⟩
  | _ => .error "cannot unmarshal response"

/-- `types.B2CSendResponse`. -/
structure B2CSendResponse where
  ConversationID : String
  OriginatorConversationID : String
  ResponseDescription : String
  ResponseCode : String
deriving DecidableEq

/-- Decoder for `types.B2CSendResponse`. -/
def decodeB2CSendResponse (j : Json) : Except String B2CSendResponse :=
  match j with
  | .obj fields => do
    let conversationID ← getStr fields "ConversationID"
    let originatorConversationID ← getStr fields "OriginatorConversationID"
    let responseDescription ← getStr fields "ResponseDescription"
    let responseCode ← getStr fields "ResponseCode"
    pure ⟨conversationID, originatorConversationID, responseDescription,
      responseCode⟩
  | .null => .ok ⟨"", "", "", ""⟩
  | _ => .error "cannot unmarshal response"

/-- `types.B2BSendResponse`. -/
structure B2BSendResponse where
  ConversationID : String
  OriginatorConversationID : String
  ResponseCode : String
  ResponseDescription : String
deriving DecidableEq

/-- Decoder for `types.B2BSendResponse`. -/
def decodeB2BSendResponse (j : Json) : Except String B2BSendResponse :=
  match j with
  | .obj fields => do
    let conversationID ← getStr fields "ConversationID"
    let originatorConversationID ← getStr fields "OriginatorConversationID"
    let responseCode ← getStr fields "ResponseCode"
    let responseDescription ← getStr fields "ResponseDescription"
    pure ⟨conversationID, originatorConversationID, responseCode,
      responseDescription⟩
  | .null => .ok ⟨"", "", "", ""⟩
  | _ => .error "cannot unmarshal response"

/-- `types.RegisterPullAPIResponse`. -/
structure RegisterPullAPIResponse where
  ResponseRefID : String
  ResponseStatus : String
  ShortCode : String
  ResponseDescription : String
deriving DecidableEq

/-- Decoder for `types.RegisterPullAPIResponse`. -/
def decodeRegisterPullAPIResponse (j : Json) :
    Except String RegisterPullAPIResponse :=
  match j with
  | .obj fields => do
    let responseRefID ← getStr fields "ResponseRefID"
    let responseStatus ← getStr fields "ResponseStatus"
    let shortCode ← getStr fields "ShortCode"
    let responseDescription ← getStr fields "ResponseDescription"
    pure ⟨responseRefID, responseStatus, shortCode, responseDescription⟩
  | .null => .ok ⟨"", "", "", ""⟩
  | _ => .error "cannot unmarshal response"

/-- `types.Transaction`. -/
structure Transaction where
  TransactionID : String
  TrxDate : String
  Msisdn : Int
  Sender : String
  TransactionType : String
  BillReference : String
  Amount : String
  OrganizationName : String
deriving DecidableEq

/-- Decoder for `types.Transaction`. -/
def decodeTransaction (j : Json) : Except String Transaction :=
  match j with
  | .obj fields => do
    let transactionID ← getStr fields "transactionId"
    let trxDate ← getStr fields "trxDate"
    let msisdn ← getInt fields "msisdn"
    let sender ← getStr fields "sender"
    let transactionType ← getStr fields "transactiontype"
    let billReference ← getStr fields "billreference"
    let amount ← getStr fields "amount"
    let organizationName ← getStr fields "organizationname"
    pure ⟨transactionID, trxDate, msisdn, sender, transactionType,
      billReference, amount, organizationName⟩
  | .null => .ok ⟨"", "", 0, "", "", "", "", ""⟩
  | _ => .error "cannot unmarshal transaction"

/-- `types.PullTransactionsResponse`. -/
structure PullTransactionsResponse where
  ResponseRefID : String
  ResponseCode : String
  ResponseMessage : String
  Transactions : List Transaction
deriving DecidableEq

/-- Decoder for `types.PullTransactionsResponse` (the transaction list is the
JSON field `Response`). -/
def decodePullTransactionsResponse (j : Json) :
    Except String PullTransactionsResponse :=
  match j with
  | .obj fields => do
    let responseRefID ← getStr fields "ResponseRefID"
    let responseCode ← getStr fields "ResponseCode"
    let responseMessage ← getStr fields "ResponseMessage"
    let transactions ←
      match lookupKV fields "Response" with
      | none => pure []
      | some .null => pure []
      | some (.arr xs) => xs.mapM decodeTransaction
      | some _ => .error "cannot unmarshal field Response"
    pure ⟨responseRefID, responseCode, responseMessage, transactions⟩
  | .null => .ok ⟨"", "", "", []⟩
  | _ => .error "cannot unmarshal response"

/-! ## client package -/

/-- `client.Mpesa`: base URL plus the shared mutable header map (the
`http.Client` transport handle carries no state relevant here and is passed
to each call as a function). -/
structure Mpesa where
  baseURL : String
  headers : List (String × String)

/-- `client.NewMpesa`. -/
def NewMpesa : Mpesa :=
  { baseURL := "https://api.safaricom.co.ke", headers := [] }

/-- `client.setHeaders`: replaces the shared header map with exactly the
content-type and bearer-authorization entries. -/
def setHeaders (m : Mpesa) (accessToken : String) : Mpesa :=
  { m with headers :=
      [("Content-Type", "application/json"),
       ("Authorization", "Bearer " ++ accessToken)] }

/-- An outgoing HTTP request as built by an operation. -/
structure HttpRequest where
  url : String
  headers : List (String × String)
  body : Json

/-- An HTTP response supplied by the transport. -/
structure HttpResponse where
  statusCode : Nat
  body : Json

/-- The transport: what `m.client.Do` answers for each request. -/
def Transport : Type := HttpRequest → HttpResponse

/-- The errors an operation can return: the `CheckKeys` validation error
(returned unwrapped) and the wrapped JSON decode error. -/
inductive GoError where
  | validation : String → GoError
  | decode : String → GoError
deriving DecidableEq

/-- The observable outcome of one operation call: the client state after the
call, the requests actually sent, and the returned value or error. -/
structure CallResult (ρ : Type) where
  state : Mpesa
  calls : List HttpRequest
  result : Except GoError ρ

/-- Required keys of `client.STKPush`. -/
def stkPushRequiredKeys : List String :=
  ["AccessToken", "BusinessShortCode", "Password", "Amount",
   "PartyA", "PartyB", "PhoneNumber", "CallBackURL",
   "AccountReference", "TransactionDesc"]

/-- `client.STKPush`: validate, inject `TransactionType` and `Timestamp`,
move the access token from body to headers, POST
`/mpesa/stkpush/v1/processrequest`, decode the success shape (the status code
is never inspected). -/
def STKPush (clock : Clock) (m : Mpesa) (payload : List (String × GoValue))
    (transport : Transport) : CallResult STKPushResponse :=
  match CheckKeys stkPushRequiredKeys payload with
  | .error e => ⟨m, [], .error (.validation e)⟩
  | .ok cleanedPayload =>
    let cleanedPayload :=
      insertKV cleanedPayload "TransactionType" (.str "CustomerPayBillOnline")
    let cleanedPayload :=
      insertKV cleanedPayload "Timestamp" (.str (GetTimestamp clock))
    let accessToken := goStr (lookupKV cleanedPayload "AccessToken")
    let m := setHeaders m accessToken
    let cleanedPayload := eraseKV cleanedPayload "AccessToken"
    let req : HttpRequest :=
      { url := m.baseURL ++ "/mpesa/stkpush/v1/processrequest",
        headers := m.headers, body := marshalMap cleanedPayload }
    ⟨m, [req],
      (decodeSTKPushResponse (transport req).body).mapError GoError.decode⟩

/-- Required keys of `client.RegisterURL`. -/
def registerURLRequiredKeys : List String :=
  ["AccessToken", "ShortCode", "ResponseType", "ConfirmationURL",
   "ValidationURL"]

/-- `client.RegisterURL`: validate, move the access token from body to
headers, POST `/mpesa/c2b/v2/registerurl`, decode the success shape. -/
def RegisterURL (_clock : Clock) (m : Mpesa)
    (payload : List (String × GoValue)) (transport : Transport) :
    CallResult RegisterURLResponse :=
  match CheckKeys registerURLRequiredKeys payload with
  | .error e => ⟨m, [], .error (.validation e)⟩
  | .ok cleanedPayload =>
    let accessToken := goStr (lookupKV cleanedPayload "AccessToken")
    let m := setHeaders m accessToken
    let cleanedPayload := eraseKV cleanedPayload "AccessToken"
    let req : HttpRequest :=
      { url := m.baseURL ++ "/mpesa/c2b/v2/registerurl",
        headers := m.headers, body := marshalMap cleanedPayload }
    ⟨m, [req],
      (decodeRegisterURLResponse (transport req).body).mapError
        GoError.decode⟩

/-- Required keys of `client.SimulateTransaction`. -/
def simulateTransactionRequiredKeys : List String :=
  ["AccessToken", "ShortCode", "Amount", "Msisdn", "BillRefNumber"]

/-- `client.SimulateTransaction`: validate, inject
`CommandID = CustomerPayBillOnline`, move the access token to headers, POST
`/mpesa/c2b/v1/simulate`, decode the success shape. -/
def SimulateTransaction (_clock : Clock) (m : Mpesa)
    (payload : List (String × GoValue)) (transport : Transport) :
    CallResult SimulateTransactionResponse :=
  match CheckKeys simulateTransactionRequiredKeys payload with
  | .error e => ⟨m, [], .error (.validation e)⟩
  | .ok cleanedPayload =>
    let cleanedPayload :=
      insertKV cleanedPayload "CommandID" (.str "CustomerPayBillOnline")
    let accessToken := goStr (lookupKV cleanedPayload "AccessToken")
    let m := setHeaders m accessToken
    let cleanedPayload := eraseKV cleanedPayload "AccessToken"
    let req : HttpRequest :=
      { url := m.baseURL ++ "/mpesa/c2b/v1/simulate",
        headers := m.headers, body := marshalMap cleanedPayload }
    ⟨m, [req],
      (decodeSimulateTransactionResponse (transport req).body).mapError
        GoError.decode⟩

/-- Required keys of `client.ReverseTransaction`. -/
def reverseTransactionRequiredKeys : List String :=
  ["AccessToken", "Initiator", "SecurityCredential", "TransactionID",
   "Amount", "ReceiverParty", "ResultURL", "QueueTimeOutURL", "Remarks",
   "Occasion"]

/-- `client.ReverseTransaction`: validate, inject
`CommandID = TransactionReversal`, move the access token to headers, POST
`/mpesa/reversal/v1/request`, decode the success shape. -/
def ReverseTransaction (_clock : Clock) (m : Mpesa)
    (payload : List (String × GoValue)) (transport : Transport) :
    CallResult ReverseTransactionResponse :=
  match CheckKeys reverseTransactionRequiredKeys payload with
  | .error e => ⟨m, [], .error (.validation e)⟩
  | .ok cleanedPayload =>
    let cleanedPayload :=
      insertKV cleanedPayload "CommandID" (.str "TransactionReversal")
    let accessToken := goStr (lookupKV cleanedPayload "AccessToken")
    let m := setHeaders m accessToken
    let cleanedPayload := eraseKV cleanedPayload "AccessToken"
    let req : HttpRequest :=
      { url := m.baseURL ++ "/mpesa/reversal/v1/request",
        headers := m.headers, body := marshalMap cleanedPayload }
    ⟨m, [req],
      (decodeReverseTransactionResponse (transport req).body).mapError
        GoError.decode⟩

/-- Required keys of `client.QueryTransaction`. -/
def queryTransactionRequiredKeys : List String :=
  ["AccessToken", "Initiator", "SecurityCredential", "TransactionID",
   "PartyA", "ResultURL", "QueueTimeOutURL", "Remarks", "Occasion"]

/-- `client.QueryTransaction`: validate, inject
`CommandID = TransactionStatusQuery` and `IdentifierType = 4`, move the
access token to headers, POST `/mpesa/transactionstatus/v1/query`, decode the
success shape. -/
def QueryTransaction (_clock : Clock) (m : Mpesa)
    (payload : List (String × GoValue)) (transport : Transport) :
    CallResult QueryTransactionResponse :=
  match CheckKeys queryTransactionRequiredKeys payload with
  | .error e => ⟨m, [], .error (.validation e)⟩
  | .ok cleanedPayload =>
    let cleanedPayload :=
      insertKV cleanedPayload "CommandID" (.str "TransactionStatusQuery")
    let cleanedPayload := insertKV cleanedPayload "IdentifierType" (.str "4")
    let accessToken := goStr (lookupKV cleanedPayload "AccessToken")
    let m := setHeaders m accessToken
    let cleanedPayload := eraseKV cleanedPayload "AccessToken"
    let req : HttpRequest :=
      { url := m.baseURL ++ "/mpesa/transactionstatus/v1/query",
        headers := m.headers, body := marshalMap cleanedPayload }
    ⟨m, [req],
      (decodeQueryTransactionResponse (transport req).body).mapError
        GoError.decode⟩

/-- Required keys of `client.GetBalance`. -/
def getBalanceRequiredKeys : List String :=
  ["AccessToken", "Initiator", "SecurityCredential", "PartyA",
   "Remarks", "QueueTimeOutURL", "ResultURL"]

/-- `client.GetBalance`: validate, inject `CommandID = AccountBalance` and
`IdentifierType = 4`, move the access token to headers, POST
`/mpesa/accountbalance/v1/query`, decode the success shape. -/
def GetBalance (_clock : Clock) (m : Mpesa)
    (payload : List (String × GoValue)) (transport : Transport) :
    CallResult GetBalanceResponse :=
  match CheckKeys getBalanceRequiredKeys payload with
  | .error e => ⟨m, [], .error (.validation e)⟩
  | .ok cleanedPayload =>
    let cleanedPayload :=
      insertKV cleanedPayload "CommandID" (.str "AccountBalance")
    let cleanedPayload := insertKV cleanedPayload "IdentifierType" (.str "4")
    let accessToken := goStr (lookupKV cleanedPayload "AccessToken")
    let m := setHeaders m accessToken
    let cleanedPayload := eraseKV cleanedPayload "AccessToken"
    let req : HttpRequest :=
      { url := m.baseURL ++ "/mpesa/accountbalance/v1/query",
        headers := m.headers, body := marshalMap cleanedPayload }
    ⟨m, [req],
      (decodeGetBalanceResponse (transport req).body).mapError
        GoError.decode⟩

/-- Required keys of `client.B2CSend` (note: `CommandID` is not among
them). -/
def b2cSendRequiredKeys : List String :=
  ["AccessToken", "InitiatorName", "SecurityCredential", "Amount",
   "PartyA", "PartyB", "Remarks", "QueueTimeOutURL", "ResultURL", "Occasion"]

/-- `client.B2CSend`: validate, inject `CommandID = PromotionPayment`, move
the access token to headers, POST `/mpesa/b2c/v1/paymentrequest`, decode the
success shape. -/
def B2CSend (_clock : Clock) (m : Mpesa)
    (payload : List (String × GoValue)) (transport : Transport) :
    CallResult B2CSendResponse :=
  match CheckKeys b2cSendRequiredKeys payload with
  | .error e => ⟨m, [], .error (.validation e)⟩
  | .ok cleanedPayload =>
    let cleanedPayload :=
      insertKV cleanedPayload "CommandID" (.str "PromotionPayment")
    let accessToken := goStr (lookupKV cleanedPayload "AccessToken")
    let m := setHeaders m accessToken
    let cleanedPayload := eraseKV cleanedPayload "AccessToken"
    let req : HttpRequest :=
      { url := m.baseURL ++ "/mpesa/b2c/v1/paymentrequest",
        headers := m.headers, body := marshalMap cleanedPayload }
    ⟨m, [req],
      (decodeB2CSendResponse (transport req).body).mapError GoError.decode⟩

/-- Required keys of `client.B2BSend`. -/
def b2bSendRequiredKeys : List String :=
  ["AccessToken", "Initiator", "SecurityCredential", "CommandID",
   "SenderIdentifierType", "RecieverIdentifierType", "Amount",
   "PartyA", "PartyB", "Remarks", "AccountReference", "Requester",
   "QueueTimeOutURL", "ResultURL"]

/-- `client.B2BSend`: validate, move the access token to headers, POST
`/mpesa/b2b/v1/paymentrequest`, decode the success shape. -/
def B2BSend (_clock : Clock) (m : Mpesa)
    (payload : List (String × GoValue)) (transport : Transport) :
    CallResult B2BSendResponse :=
  match CheckKeys b2bSendRequiredKeys payload with
  | .error e => ⟨m, [], .error (.validation e)⟩
  | .ok cleanedPayload =>
    let accessToken := goStr (lookupKV cleanedPayload "AccessToken")
    let m := setHeaders m accessToken
    let cleanedPayload := eraseKV cleanedPayload "AccessToken"
    let req : HttpRequest :=
      { url := m.baseURL ++ "/mpesa/b2b/v1/paymentrequest",
        headers := m.headers, body := marshalMap cleanedPayload }
    ⟨m, [req],
      (decodeB2BSendResponse (transport req).body).mapError GoError.decode⟩

/-- Required keys of `client.RegisterPullAPI`. -/
def registerPullAPIRequiredKeys : List String :=
  ["AccessToken", "ShortCode", "NominatedNumber", "CallBackURL"]

/-- `client.RegisterPullAPI`: validate, move the access token to headers,
then inject `RequestType = Pull`, POST `/pulltransactions/v1/register`,
decode the success shape. -/
def RegisterPullAPI (_clock : Clock) (m : Mpesa)
    (payload : List (String × GoValue)) (transport : Transport) :
    CallResult RegisterPullAPIResponse :=
  match CheckKeys registerPullAPIRequiredKeys payload with
  | .error e => ⟨m, [], .error (.validation e)⟩
  | .ok cleanedPayload =>
    let accessToken := goStr (lookupKV cleanedPayload "AccessToken")
    let m := setHeaders m accessToken
    let cleanedPayload := eraseKV cleanedPayload "AccessToken"
    let cleanedPayload := insertKV cleanedPayload "RequestType" (.str "Pull")
    let req : HttpRequest :=
      { url := m.baseURL ++ "/pulltransactions/v1/register",
        headers := m.headers, body := marshalMap cleanedPayload }
    ⟨m, [req],
      (decodeRegisterPullAPIResponse (transport req).body).mapError
        GoError.decode⟩

/-- Required keys of `client.PullTransactions`. -/
def pullTransactionsRequiredKeys : List String :=
  ["AccessToken", "ShortCode", "StartDate", "EndDate", "OffSetValue"]

/-- `client.PullTransactions`: validate, move the access token to headers,
POST `/pulltransactions/v1/query`, decode the success shape. -/
def PullTransactions (_clock : Clock) (m : Mpesa)
    (payload : List (String × GoValue)) (transport : Transport) :
    CallResult PullTransactionsResponse :=
  match CheckKeys pullTransactionsRequiredKeys payload with
  | .error e => ⟨m, [], .error (.validation e)⟩
  | .ok cleanedPayload =>
    let accessToken := goStr (lookupKV cleanedPayload "AccessToken")
    let m := setHeaders m accessToken
    let cleanedPayload := eraseKV cleanedPayload "AccessToken"
    let req : HttpRequest :=
      { url := m.baseURL ++ "/pulltransactions/v1/query",
        headers := m.headers, body := marshalMap cleanedPayload }
    ⟨m, [req],
      (decodePullTransactionsResponse (transport req).body).mapError
        GoError.decode⟩

/-! ## The operations as an indexed family, for claims quantifying over all
payload-carrying client operations -/

/-- The ten payload-carrying client operations (the token-exchange call
`GetAccessToken` uses basic auth and no payload map, so it is not among
them). -/
inductive Op where
  | stkPush
  | registerURL
  | simulateTransaction
  | reverseTransaction
  | queryTransaction
  | getBalance
  | b2cSend
  | b2bSend
  | registerPullAPI
  | pullTransactions
deriving DecidableEq

/-- The required-key list each operation passes to `CheckKeys`. -/
def Op.requiredKeys : Op → List String
  | .stkPush => stkPushRequiredKeys
  | .registerURL => registerURLRequiredKeys
  | .simulateTransaction => simulateTransactionRequiredKeys
  | .reverseTransaction => reverseTransactionRequiredKeys
  | .queryTransaction => queryTransactionRequiredKeys
  | .getBalance => getBalanceRequiredKeys
  | .b2cSend => b2cSendRequiredKeys
  | .b2bSend => b2bSendRequiredKeys
  | .registerPullAPI => registerPullAPIRequiredKeys
  | .pullTransactions => pullTransactionsRequiredKeys

/-- Each operation's typed success response. -/
def Op.ResponseTy : Op → Type
  | .stkPush => STKPushResponse
  | .registerURL => RegisterURLResponse
  | .simulateTransaction => SimulateTransactionResponse
  | .reverseTransaction => ReverseTransactionResponse
  | .queryTransaction => QueryTransactionResponse
  | .getBalance => GetBalanceResponse
  | .b2cSend => B2CSendResponse
  | .b2bSend => B2BSendResponse
  | .registerPullAPI => RegisterPullAPIResponse
  | .pullTransactions => PullTransactionsResponse

/-- Each operation's response decoder. -/
def Op.decodeResponse : (op : Op) → Json → Except String op.ResponseTy
  | .stkPush => decodeSTKPushResponse
  | .registerURL => decodeRegisterURLResponse
  | .simulateTransaction => decodeSimulateTransactionResponse
  | .reverseTransaction => decodeReverseTransactionResponse
  | .queryTransaction => decodeQueryTransactionResponse
  | .getBalance => decodeGetBalanceResponse
  | .b2cSend => decodeB2CSendResponse
  | .b2bSend => decodeB2BSendResponse
  | .registerPullAPI => decodeRegisterPullAPIResponse
  | .pullTransactions => decodePullTransactionsResponse

/-- Dispatch: run the given client operation. -/
def runOp : (op : Op) → Clock → Mpesa → List (String × GoValue) →
    Transport → CallResult op.ResponseTy
  | .stkPush => STKPush
  | .registerURL => RegisterURL
  | .simulateTransaction => SimulateTransaction
  | .reverseTransaction => ReverseTransaction
  | .queryTransaction => QueryTransaction
  | .getBalance => GetBalance
  | .b2cSend => B2CSend
  | .b2bSend => B2BSend
  | .registerPullAPI => RegisterPullAPI
  | .pullTransactions => PullTransactions

/-! ## Concrete fixtures used by witnesses and counterexamples -/

/-- A frozen clock value: 2024-01-02 03:04:05. -/
def testClock : Clock := ⟨2024, 1, 2, 3, 4, 5⟩

/-- A transport whose responses carry status 200 and a `null` body. -/
def nullTransport : Transport := fun _ => ⟨200, .null⟩

/-- A complete, valid `STKPush` payload (the one used by the repository's
tests). -/
def stkValidPayload : List (String × GoValue) :=
  [("AccessToken", .str "test-token"),
   ("BusinessShortCode", .str "123456"),
   ("Password", .str "encoded_password"),
   ("Amount", .str "100"),
   ("PartyA", .str "254700000000"),
   ("PartyB", .str "123456"),
   ("PhoneNumber", .str "254700000000"),
   ("CallBackURL", .str "https://callback.example.com"),
   ("AccountReference", .str "Test123"),
   ("TransactionDesc", .str "Payment")]

/-- A complete, valid `STKPush` payload whose `Password` value is the empty
string (a value no run of `EncodePassword` can produce). -/
def stkEmptyPasswordPayload : List (String × GoValue) :=
  [("AccessToken", .str "test-token"),
   ("BusinessShortCode", .str "123456"),
   ("Password", .str ""),
   ("Amount", .str "100"),
   ("PartyA", .str "254700000000"),
   ("PartyB", .str "123456"),
   ("PhoneNumber", .str "254700000000"),
   ("CallBackURL", .str "https://callback.example.com"),
   ("AccountReference", .str "Test123"),
   ("TransactionDesc", .str "Payment")]

/-- The provider's nested callback-error envelope for a cancelled push
payment, i.e. a body of the `types.STKPushError` shape. -/
def stkErrorEnvelope : Json :=
  .obj [("Body", .obj [("stkCallback",
    .obj [("MerchantRequestID", .str "29115-34620561-1"),
          ("CheckoutRequestID", .str "ws_CO_191220191020363925"),
          ("ResultCode", .str "1032"),
          ("ResultDesc", .str "Request canceled by user.")])])]

/-- A complete, valid `RegisterURL` payload. -/
def registerURLValidPayload : List (String × GoValue) :=
  [("AccessToken", .str "test-token"),
   ("ShortCode", .str "123456"),
   ("ResponseType", .str "Completed"),
   ("ConfirmationURL", .str "https://confirm.example.com"),
   ("ValidationURL", .str "https://validate.example.com")]

/-- A complete, valid `B2CSend` payload that in addition carries a
caller-chosen `CommandID` value. -/
def b2cPayloadWithCommandID : List (String × GoValue) :=
  [("AccessToken", .str "test-token"),
   ("InitiatorName", .str "test-initiator"),
   ("SecurityCredential", .str "credential"),
   ("CommandID", .str "BusinessPayment"),
   ("Amount", .str "100"),
   ("PartyA", .str "123456"),
   ("PartyB", .str "254700000000"),
   ("Remarks", .str "Test B2C"),
   ("QueueTimeOutURL", .str "https://timeout.example.com"),
   ("ResultURL", .str "https://result.example.com"),
   ("Occasion", .str "Test")]

/-- The transport answering every request with status 400 and the
callback-error envelope as body. -/
def stkErrorTransport : Transport := fun _ => ⟨400, stkErrorEnvelope⟩

/-- The `STKPush` call on the empty-password payload. -/
def stkEmptyPasswordCall : CallResult STKPushResponse :=
  STKPush testClock NewMpesa stkEmptyPasswordPayload nullTransport

/-! ## Helper lemmas about the map model -/

theorem lookupKV_insertKV_self {α : Type} (m : List (String × α)) (k : String)
    (v : α) : lookupKV (insertKV m k v) k = some v := by
  induction m with
  | nil => simp [insertKV, lookupKV]
  | cons p rest ih =>
    by_cases h : p.1 = k
    · simp [insertKV, h, lookupKV]
    · simp [insertKV, h, lookupKV, ih]

theorem lookupKV_insertKV_ne {α : Type} (m : List (String × α))
    (k k' : String) (v : α) (h : k' ≠ k) :
    lookupKV (insertKV m k v) k' = lookupKV m k' := by
  have h' : ¬ k = k' := fun e => h e.symm
  induction m with
  | nil => simp [insertKV, lookupKV, h']
  | cons p rest ih =>
    obtain ⟨a, b⟩ := p
    by_cases ha : a = k
    · subst ha
      simp [insertKV, lookupKV, h']
    · simp only [insertKV, if_neg ha, lookupKV, ih]

theorem lookupKV_eraseKV_self {α : Type} (m : List (String × α))
    (k : String) : lookupKV (eraseKV m k) k = none := by
  induction m with
  | nil => simp [eraseKV, lookupKV]
  | cons p rest ih =>
    obtain ⟨a, b⟩ := p
    by_cases h : a = k
    · simp [eraseKV, h, ih]
    · simp [eraseKV, h, lookupKV, ih]

theorem lookupKV_eraseKV_ne {α : Type} (m : List (String × α))
    (k k' : String) (h : k' ≠ k) :
    lookupKV (eraseKV m k) k' = lookupKV m k' := by
  induction m with
  | nil => simp [eraseKV]
  | cons p rest ih =>
    obtain ⟨a, b⟩ := p
    by_cases ha : a = k
    · subst ha
      have h' : ¬ a = k' := fun e => h e.symm
      simp [eraseKV, lookupKV, h', ih]
    · by_cases ha' : a = k'
      · simp [eraseKV, ha, lookupKV, ha', h]
      · simp [eraseKV, ha, lookupKV, ha', ih]

theorem jsonLookup_marshalMap (m : List (String × GoValue)) (k : String) :
    jsonLookup (marshalMap m) k = (lookupKV m k).map GoValue.toJson := by
  induction m with
  | nil => simp [marshalMap, jsonLookup, lookupKV]
  | cons p rest ih =>
    by_cases h : p.1 = k
    · simp [marshalMap, jsonLookup, lookupKV, h]
    · simpa [marshalMap, jsonLookup, lookupKV, h] using ih

/-- If some element of the list satisfies the predicate, `find?` finds
one. -/
theorem find?_isSome_of_mem {α : Type} (p : α → Bool) (l : List α) (a : α)
    (ha : a ∈ l) (hp : p a = true) : ∃ b, l.find? p = some b := by
  induction l with
  | nil => cases ha
  | cons x xs ih =>
    by_cases hx : p x = true
    · exact ⟨x, List.find?_cons_of_pos _ hx⟩
    · rw [List.find?_cons_of_neg _ hx]
      rcases List.mem_cons.mp ha with rfl | hmem
      · exact absurd hp hx
      · exact ih hmem

/-! ## Helper lemmas about CheckKeys -/

theorem CheckKeysAux_error {α : Type} (payload : List (String × α)) :
    ∀ (req : List String) (k₀ : String),
      req.find? (fun k => (lookupKV payload k).isNone) = some k₀ →
      ∀ cleaned, CheckKeysAux payload req cleaned =
        .error ("missing key: " ++ k₀) := by
  intro req
  induction req with
  | nil => intro k₀ h _; simp [List.find?] at h
  | cons key rest ih =>
    intro k₀ h cleaned
    by_cases hk : ((lookupKV payload key).isNone : Bool) = true
    · simp only [List.find?_cons, hk] at h
      obtain rfl : key = k₀ := Option.some.inj h
      have hnone : lookupKV payload key = none :=
        Option.isNone_iff_eq_none.mp hk
      simp [CheckKeysAux, hnone]
    · have hkf : (lookupKV payload key).isNone = false := by
        revert hk; cases (lookupKV payload key).isNone <;> simp
      simp only [List.find?_cons, hkf] at h
      obtain ⟨v, hv⟩ : ∃ v, lookupKV payload key = some v := by
        cases hcase : lookupKV payload key with
        | none => exact absurd (by simp [hcase]) hk
        | some v => exact ⟨v, rfl⟩
      simpa [CheckKeysAux, hv] using ih k₀ h (insertKV cleaned key v)

theorem CheckKeysAux_ok {α : Type} (payload : List (String × α)) :
    ∀ (req : List String),
      (∀ k ∈ req, (lookupKV payload k).isSome) →
      ∀ cleaned, ∃ m, CheckKeysAux payload req cleaned = .ok m ∧
        ∀ k, lookupKV m k =
          if k ∈ req then lookupKV payload k else lookupKV cleaned k := by
  intro req
  induction req with
  | nil =>
    intro _ cleaned
    exact ⟨cleaned, rfl, fun k => by simp⟩
  | cons key rest ih =>
    intro hall cleaned
    obtain ⟨v, hv⟩ :=
      Option.isSome_iff_exists.mp (hall key (List.mem_cons_self key rest))
    obtain ⟨m, hm, hchar⟩ :=
      ih (fun k hk => hall k (List.mem_cons_of_mem key hk))
        (insertKV cleaned key v)
    refine ⟨m, by simpa [CheckKeysAux, hv] using hm, fun k => ?_⟩
    rw [hchar k]
    by_cases hk : k ∈ rest
    · simp [hk, List.mem_cons_of_mem key hk]
    · by_cases hkey : k = key
      · subst hkey
        simp [hk, lookupKV_insertKV_self, hv]
      · simp [hk, hkey, lookupKV_insertKV_ne cleaned key k v hkey]

theorem CheckKeys_ok {α : Type} (req : List String)
    (payload : List (String × α))
    (hall : ∀ k ∈ req, (lookupKV payload k).isSome) :
    ∃ m, CheckKeys req payload = .ok m ∧
      ∀ k, lookupKV m k = if k ∈ req then lookupKV payload k else none := by
  obtain ⟨m, hm, hchar⟩ := CheckKeysAux_ok payload req hall []
  exact ⟨m, hm, fun k => by simpa [lookupKV] using hchar k⟩

theorem CheckKeys_error {α : Type} (req : List String)
    (payload : List (String × α)) (k₀ : String)
    (h : req.find? (fun k => (lookupKV payload k).isNone) = some k₀) :
    CheckKeys req payload = .error ("missing key: " ++ k₀) :=
  CheckKeysAux_error payload req k₀ h []

/-! ## Helper lemmas about timestamps and base64 -/

theorem getTimestamp_data (c : Clock) :
    (GetTimestamp c).data =
      [Nat.digitChar (c.year / 1000 % 10), Nat.digitChar (c.year / 100 % 10),
       Nat.digitChar (c.year / 10 % 10), Nat.digitChar (c.year % 10),
       Nat.digitChar (c.month / 10 % 10), Nat.digitChar (c.month % 10),
       Nat.digitChar (c.day / 10 % 10), Nat.digitChar (c.day % 10),
       Nat.digitChar (c.hour / 10 % 10), Nat.digitChar (c.hour % 10),
       Nat.digitChar (c.minute / 10 % 10), Nat.digitChar (c.minute % 10),
       Nat.digitChar (c.second / 10 % 10), Nat.digitChar (c.second % 10)] := by
  simp [GetTimestamp, pad4, pad2, String.data_append]

theorem string_length_eq_data_length (s : String) :
    s.length = s.data.length := by
  cases s
  rfl

theorem getTimestamp_length (c : Clock) : (GetTimestamp c).length = 14 := by
  rw [string_length_eq_data_length, getTimestamp_data]
  rfl

theorem base64EncodeList_ne_nil :
    ∀ (l : List Nat), l ≠ [] → base64EncodeList l ≠ []
  | [], h => absurd rfl h
  | [_], _ => by simp [base64EncodeList]
  | [_, _], _ => by simp [base64EncodeList]
  | _ :: _ :: _ :: _, _ => by simp [base64EncodeList]

theorem EncodePassword_ne_empty (c : Clock) (sc pk : String) :
    EncodePassword c sc pk ≠ "" := by
  intro h
  have hdata : base64EncodeList (asciiBytes (sc ++ pk ++ GetTimestamp c))
      = [] := by
    have := congrArg String.data h
    simpa [EncodePassword, base64EncodeStr] using this
  refine base64EncodeList_ne_nil _ ?_ hdata
  simp [asciiBytes, String.data_append, getTimestamp_data]

/-! ## Claim theorems -/

/-- C3: For every list of required key names and every payload map, if every
required key is present `CheckKeys` returns a map containing exactly the
required keys with their values from the payload (all other keys dropped),
and otherwise it fails with the error naming the first missing key in
declaration order of the required-key list. -/
theorem checkKeys_required_keys_spec :
    (∀ (requiredKeys : List String) (payload : List (String × GoValue)),
      (∀ k ∈ requiredKeys, (lookupKV payload k).isSome) →
      ∃ m, CheckKeys requiredKeys payload = .ok m ∧
        ∀ k, lookupKV m k =
          if k ∈ requiredKeys then lookupKV payload k else none) ∧
    (∀ (requiredKeys : List String) (payload : List (String × GoValue))
      (k₀ : String),
      requiredKeys.find? (fun k => (lookupKV payload k).isNone) = some k₀ →
      CheckKeys requiredKeys payload = .error ("missing key: " ++ k₀)) :=
  ⟨fun requiredKeys payload hall => CheckKeys_ok requiredKeys payload hall,
   fun requiredKeys payload k₀ h => CheckKeys_error requiredKeys payload k₀ h⟩

/-- Witness for C3: on the payload `{B 2, A 1, C 3}` with required keys
`[A, B]`, `CheckKeys` keeps exactly `A` and `B`; on a payload lacking `B` it
fails naming `B`. -/
theorem checkKeys_required_keys_spec_witness :
    (∃ m, CheckKeys ["A", "B"]
        [("B", GoValue.str "2"), ("A", GoValue.str "1"),
         ("C", GoValue.str "3")] = .ok m ∧
      lookupKV m "A" = some (.str "1") ∧
      lookupKV m "B" = some (.str "2") ∧
      lookupKV m "C" = none) ∧
    CheckKeys ["A", "B"] [("A", GoValue.str "1")] =
      .error "missing key: B" := by
  constructor
  · obtain ⟨m, hm, hchar⟩ := checkKeys_required_keys_spec.1 ["A", "B"]
      [("B", GoValue.str "2"), ("A", GoValue.str "1"), ("C", GoValue.str "3")]
      (by decide)
    refine ⟨m, hm, ?_, ?_, ?_⟩ <;> rw [hchar] <;> decide
  · exact checkKeys_required_keys_spec.2 ["A", "B"]
      [("A", GoValue.str "1")] "B" (by decide)

/-- C4: `EncodePassword`, evaluated at an injected clock value, equals the
standard base64 encoding of the byte concatenation
shortcode + passkey + timestamp, where the timestamp is the clock value
rendered as the 14-digit string YYYYMMDDHHMMSS; in particular, at the frozen
clock 2024-01-02 03:04:05, `encode("123456", "passkey")` equals
`base64("123456" + "passkey" + "20240102030405")`, deterministically. -/
theorem encodePassword_base64_concatenation :
    (∀ (clock : Clock) (shortcode passkey : String),
      EncodePassword clock shortcode passkey =
        base64EncodeStr
          (asciiBytes (shortcode ++ passkey ++ GetTimestamp clock))) ∧
    (∀ clock : Clock, (GetTimestamp clock).length = 14) ∧
    GetTimestamp testClock = "20240102030405" ∧
    EncodePassword testClock "123456" "passkey" =
      "MTIzNDU2cGFzc2tleTIwMjQwMTAyMDMwNDA1" ∧
    base64EncodeStr (asciiBytes ("123456" ++ "passkey" ++ "20240102030405"))
      = "MTIzNDU2cGFzc2tleTIwMjQwMTAyMDMwNDA1" :=
  ⟨fun _ _ _ => rfl, getTimestamp_length, rfl, rfl, rfl⟩

/-- C1: For every client operation and every payload from which at least one
of the operation's required keys is absent, the call returns the validation
error naming a missing field (the first one in declaration order), sends no
request, leaves the client state untouched, and never consults the HTTP
transport (the outcome is the same for every transport). -/
theorem missing_required_key_validation_error (op : Op) (clock : Clock)
    (m : Mpesa) (payload : List (String × GoValue)) (transport : Transport)
    (k : String) (hk : k ∈ op.requiredKeys)
    (hmiss : lookupKV payload k = none) :
    ∃ k₀, k₀ ∈ op.requiredKeys ∧ lookupKV payload k₀ = none ∧
      op.requiredKeys.find? (fun k' => (lookupKV payload k').isNone)
        = some k₀ ∧
      (runOp op clock m payload transport).result =
        .error (.validation ("missing key: " ++ k₀)) ∧
      (runOp op clock m payload transport).calls = [] ∧
      (runOp op clock m payload transport).state = m ∧
      ∀ transport', runOp op clock m payload transport =
        runOp op clock m payload transport' := by
  obtain ⟨k₀, hfind⟩ :=
    find?_isSome_of_mem (fun k' => (lookupKV payload k').isNone)
      op.requiredKeys k hk (by simp [hmiss])
  have hmem := List.mem_of_find?_eq_some hfind
  have hp := List.find?_some hfind
  have hnone : lookupKV payload k₀ = none :=
    Option.isNone_iff_eq_none.mp (by simpa using hp)
  have hck : CheckKeys op.requiredKeys payload =
      .error ("missing key: " ++ k₀) :=
    CheckKeys_error op.requiredKeys payload k₀ hfind
  have hrun : ∀ transport', runOp op clock m payload transport' =
      ⟨m, [], .error (.validation ("missing key: " ++ k₀))⟩ := by
    intro transport'
    cases op <;> simp only [Op.requiredKeys] at hck <;>
      simp [runOp, STKPush, RegisterURL, SimulateTransaction,
        ReverseTransaction, QueryTransaction, GetBalance, B2CSend, B2BSend,
        RegisterPullAPI, PullTransactions, hck]
  exact ⟨k₀, hmem, hnone, hfind, by rw [hrun], by rw [hrun], by rw [hrun],
    fun transport' => (hrun transport).trans (hrun transport').symm⟩

/-- Witness for C1: `STKPush` on the empty payload fails with
`missing key: AccessToken` and performs no call. -/
theorem missing_required_key_validation_error_witness :
    (runOp Op.stkPush testClock NewMpesa [] nullTransport).result =
      .error (.validation "missing key: AccessToken") ∧
    (runOp Op.stkPush testClock NewMpesa [] nullTransport).calls = [] := by
  obtain ⟨k₀, _, _, hfind, hres, hcalls, _, _⟩ :=
    missing_required_key_validation_error Op.stkPush testClock NewMpesa []
      nullTransport "AccessToken" (by decide) (by decide)
  obtain rfl : k₀ = "AccessToken" := by
    have hfind' : (Op.requiredKeys Op.stkPush).find?
        (fun k' => (lookupKV ([] : List (String × GoValue)) k').isNone)
        = some "AccessToken" := by decide
    rw [hfind'] at hfind
    exact (Option.some.inj hfind).symm
  exact ⟨hres, hcalls⟩

/-- C6: Every token-authenticated operation invoked with access token `t`
sets the client's shared header map to exactly
`{Content-Type: application/json, Authorization: Bearer t}` — replacing, not
merging with, whatever headers the client held before — and those are
exactly the headers attached to the outgoing request. -/
theorem token_headers_replaced (op : Op) (clock : Clock) (m : Mpesa)
    (payload : List (String × GoValue)) (transport : Transport) (t : String)
    (hall : ∀ k ∈ op.requiredKeys, (lookupKV payload k).isSome)
    (htok : lookupKV payload "AccessToken" = some (.str t)) :
    (runOp op clock m payload transport).state.headers =
      [("Content-Type", "application/json"),
       ("Authorization", "Bearer " ++ t)] ∧
    ∃ req, (runOp op clock m payload transport).calls = [req] ∧
      req.headers =
        [("Content-Type", "application/json"),
         ("Authorization", "Bearer " ++ t)] := by
  obtain ⟨c, hck, hchar⟩ := CheckKeys_ok op.requiredKeys payload hall
  have hmem : "AccessToken" ∈ op.requiredKeys := by
    cases op <;> decide
  have hc : lookupKV c "AccessToken" = some (.str t) := by
    rw [hchar, if_pos hmem]; exact htok
  cases op
  case stkPush =>
    simp only [Op.requiredKeys] at hck
    simp only [runOp, STKPush, hck]
    rw [lookupKV_insertKV_ne _ _ _ _ (by decide),
      lookupKV_insertKV_ne _ _ _ _ (by decide), hc]
    exact ⟨rfl, _, rfl, rfl⟩
  case registerURL =>
    simp only [Op.requiredKeys] at hck
    simp only [runOp, RegisterURL, hck]
    rw [hc]
    exact ⟨rfl, _, rfl, rfl⟩
  case simulateTransaction =>
    simp only [Op.requiredKeys] at hck
    simp only [runOp, SimulateTransaction, hck]
    rw [lookupKV_insertKV_ne _ _ _ _ (by decide), hc]
    exact ⟨rfl, _, rfl, rfl⟩
  case reverseTransaction =>
    simp only [Op.requiredKeys] at hck
    simp only [runOp, ReverseTransaction, hck]
    rw [lookupKV_insertKV_ne _ _ _ _ (by decide), hc]
    exact ⟨rfl, _, rfl, rfl⟩
  case queryTransaction =>
    simp only [Op.requiredKeys] at hck
    simp only [runOp, QueryTransaction, hck]
    rw [lookupKV_insertKV_ne _ _ _ _ (by decide),
      lookupKV_insertKV_ne _ _ _ _ (by decide), hc]
    exact ⟨rfl, _, rfl, rfl⟩
  case getBalance =>
    simp only [Op.requiredKeys] at hck
    simp only [runOp, GetBalance, hck]
    rw [lookupKV_insertKV_ne _ _ _ _ (by decide),
      lookupKV_insertKV_ne _ _ _ _ (by decide), hc]
    exact ⟨rfl, _, rfl, rfl⟩
  case b2cSend =>
    simp only [Op.requiredKeys] at hck
    simp only [runOp, B2CSend, hck]
    rw [lookupKV_insertKV_ne _ _ _ _ (by decide), hc]
    exact ⟨rfl, _, rfl, rfl⟩
  case b2bSend =>
    simp only [Op.requiredKeys] at hck
    simp only [runOp, B2BSend, hck]
    rw [hc]
    exact ⟨rfl, _, rfl, rfl⟩
  case registerPullAPI =>
    simp only [Op.requiredKeys] at hck
    simp only [runOp, RegisterPullAPI, hck]
    rw [hc]
    exact ⟨rfl, _, rfl, rfl⟩
  case pullTransactions =>
    simp only [Op.requiredKeys] at hck
    simp only [runOp, PullTransactions, hck]
    rw [hc]
    exact ⟨rfl, _, rfl, rfl⟩

/-- Witness for C6: a concrete `STKPush` call on a client whose headers
already held another entry ends with exactly the two fresh headers. -/
theorem token_headers_replaced_witness :
    (runOp Op.stkPush testClock
        { baseURL := "https://api.safaricom.co.ke",
          headers := [("X-Stale", "old")] }
        stkValidPayload nullTransport).state.headers =
      [("Content-Type", "application/json"),
       ("Authorization", "Bearer test-token")] ∧
    ∃ req, (runOp Op.stkPush testClock
        { baseURL := "https://api.safaricom.co.ke",
          headers := [("X-Stale", "old")] }
        stkValidPayload nullTransport).calls = [req] ∧
      req.headers =
        [("Content-Type", "application/json"),
         ("Authorization", "Bearer test-token")] :=
  token_headers_replaced Op.stkPush testClock
    { baseURL := "https://api.safaricom.co.ke",
      headers := [("X-Stale", "old")] }
    stkValidPayload nullTransport "test-token" (by decide) (by decide)

/-- C7: For every token-authenticated operation and every payload that
passes validation, the JSON request body carries no `AccessToken` key: the
access token travels only in the `Authorization` header. -/
theorem access_token_not_in_body (op : Op) (clock : Clock) (m : Mpesa)
    (payload : List (String × GoValue)) (transport : Transport) (t : String)
    (hall : ∀ k ∈ op.requiredKeys, (lookupKV payload k).isSome)
    (htok : lookupKV payload "AccessToken" = some (.str t)) :
    ∃ req, (runOp op clock m payload transport).calls = [req] ∧
      jsonLookup req.body "AccessToken" = none ∧
      lookupKV req.headers "Authorization" = some ("Bearer " ++ t) := by
  obtain ⟨c, hck, hchar⟩ := CheckKeys_ok op.requiredKeys payload hall
  have hmem : "AccessToken" ∈ op.requiredKeys := by
    cases op <;> decide
  have hc : lookupKV c "AccessToken" = some (.str t) := by
    rw [hchar, if_pos hmem]; exact htok
  cases op
  case stkPush =>
    simp only [Op.requiredKeys] at hck
    simp only [runOp, STKPush, hck]
    rw [lookupKV_insertKV_ne _ _ _ _ (by decide),
      lookupKV_insertKV_ne _ _ _ _ (by decide), hc]
    refine ⟨_, rfl, ?_, ?_⟩
    · rw [jsonLookup_marshalMap, lookupKV_eraseKV_self]; rfl
    · simp [setHeaders, lookupKV, goStr]
  case registerURL =>
    simp only [Op.requiredKeys] at hck
    simp only [runOp, RegisterURL, hck]
    rw [hc]
    refine ⟨_, rfl, ?_, ?_⟩
    · rw [jsonLookup_marshalMap, lookupKV_eraseKV_self]; rfl
    · simp [setHeaders, lookupKV, goStr]
  case simulateTransaction =>
    simp only [Op.requiredKeys] at hck
    simp only [runOp, SimulateTransaction, hck]
    rw [lookupKV_insertKV_ne _ _ _ _ (by decide), hc]
    refine ⟨_, rfl, ?_, ?_⟩
    · rw [jsonLookup_marshalMap, lookupKV_eraseKV_self]; rfl
    · simp [setHeaders, lookupKV, goStr]
  case reverseTransaction =>
    simp only [Op.requiredKeys] at hck
    simp only [runOp, ReverseTransaction, hck]
    rw [lookupKV_insertKV_ne _ _ _ _ (by decide), hc]
    refine ⟨_, rfl, ?_, ?_⟩
    · rw [jsonLookup_marshalMap, lookupKV_eraseKV_self]; rfl
    · simp [setHeaders, lookupKV, goStr]
  case queryTransaction =>
    simp only [Op.requiredKeys] at hck
    simp only [runOp, QueryTransaction, hck]
    rw [lookupKV_insertKV_ne _ _ _ _ (by decide),
      lookupKV_insertKV_ne _ _ _ _ (by decide), hc]
    refine ⟨_, rfl, ?_, ?_⟩
    · rw [jsonLookup_marshalMap, lookupKV_eraseKV_self]; rfl
    · simp [setHeaders, lookupKV, goStr]
  case getBalance =>
    simp only [Op.requiredKeys] at hck
    simp only [runOp, GetBalance, hck]
    rw [lookupKV_insertKV_ne _ _ _ _ (by decide),
      lookupKV_insertKV_ne _ _ _ _ (by decide), hc]
    refine ⟨_, rfl, ?_, ?_⟩
    · rw [jsonLookup_marshalMap, lookupKV_eraseKV_self]; rfl
    · simp [setHeaders, lookupKV, goStr]
  case b2cSend =>
    simp only [Op.requiredKeys] at hck
    simp only [runOp, B2CSend, hck]
    rw [lookupKV_insertKV_ne _ _ _ _ (by decide), hc]
    refine ⟨_, rfl, ?_, ?_⟩
    · rw [jsonLookup_marshalMap, lookupKV_eraseKV_self]; rfl
    · simp [setHeaders, lookupKV, goStr]
  case b2bSend =>
    simp only [Op.requiredKeys] at hck
    simp only [runOp, B2BSend, hck]
    rw [hc]
    refine ⟨_, rfl, ?_, ?_⟩
    · rw [jsonLookup_marshalMap, lookupKV_eraseKV_self]; rfl
    · simp [setHeaders, lookupKV, goStr]
  case registerPullAPI =>
    simp only [Op.requiredKeys] at hck
    simp only [runOp, RegisterPullAPI, hck]
    rw [hc]
    refine ⟨_, rfl, ?_, ?_⟩
    · rw [jsonLookup_marshalMap, lookupKV_insertKV_ne _ _ _ _ (by decide),
        lookupKV_eraseKV_self]
      rfl
    · simp [setHeaders, lookupKV, goStr]
  case pullTransactions =>
    simp only [Op.requiredKeys] at hck
    simp only [runOp, PullTransactions, hck]
    rw [hc]
    refine ⟨_, rfl, ?_, ?_⟩
    · rw [jsonLookup_marshalMap, lookupKV_eraseKV_self]; rfl
    · simp [setHeaders, lookupKV, goStr]

/-- Witness for C7: the concrete `RegisterPullAPI` call sends one request
whose body has no `AccessToken` key and whose `Authorization` header carries
the bearer token. -/
theorem access_token_not_in_body_witness :
    ∃ req, (runOp Op.registerPullAPI testClock NewMpesa
        [("AccessToken", GoValue.str "test-token"),
         ("ShortCode", GoValue.str "600000"),
         ("NominatedNumber", GoValue.str "254700000000"),
         ("CallBackURL", GoValue.str "https://callback.example.com")]
        nullTransport).calls = [req] ∧
      jsonLookup req.body "AccessToken" = none ∧
      lookupKV req.headers "Authorization" =
        some ("Bearer " ++ "test-token") :=
  access_token_not_in_body Op.registerPullAPI testClock NewMpesa
    [("AccessToken", GoValue.str "test-token"),
     ("ShortCode", GoValue.str "600000"),
     ("NominatedNumber", GoValue.str "254700000000"),
     ("CallBackURL", GoValue.str "https://callback.example.com")]
    nullTransport "test-token" (by decide) (by decide)

/-- C8: For every operation other than push-payment and every HTTP status
code, the client's result is exactly the decode of the response body into
the operation's success shape — the status code is never consulted, so
provider-level failure is not distinguished from success at the client
layer. -/
theorem non_push_ops_decode_regardless_of_status (op : Op)
    (hop : op ≠ Op.stkPush) (clock : Clock) (m : Mpesa)
    (payload : List (String × GoValue))
    (hall : ∀ k ∈ op.requiredKeys, (lookupKV payload k).isSome)
    (s : Nat) (b : Json) :
    (runOp op clock m payload (fun _ => ⟨s, b⟩)).result =
      (op.decodeResponse b).mapError GoError.decode := by
  obtain ⟨c, hck, _⟩ := CheckKeys_ok op.requiredKeys payload hall
  cases op
  case stkPush => exact absurd rfl hop
  case registerURL =>
    simp only [Op.requiredKeys] at hck
    simp [runOp, RegisterURL, hck, Op.decodeResponse]
  case simulateTransaction =>
    simp only [Op.requiredKeys] at hck
    simp [runOp, SimulateTransaction, hck, Op.decodeResponse]
  case reverseTransaction =>
    simp only [Op.requiredKeys] at hck
    simp [runOp, ReverseTransaction, hck, Op.decodeResponse]
  case queryTransaction =>
    simp only [Op.requiredKeys] at hck
    simp [runOp, QueryTransaction, hck, Op.decodeResponse]
  case getBalance =>
    simp only [Op.requiredKeys] at hck
    simp [runOp, GetBalance, hck, Op.decodeResponse]
  case b2cSend =>
    simp only [Op.requiredKeys] at hck
    simp [runOp, B2CSend, hck, Op.decodeResponse]
  case b2bSend =>
    simp only [Op.requiredKeys] at hck
    simp [runOp, B2BSend, hck, Op.decodeResponse]
  case registerPullAPI =>
    simp only [Op.requiredKeys] at hck
    simp [runOp, RegisterPullAPI, hck, Op.decodeResponse]
  case pullTransactions =>
    simp only [Op.requiredKeys] at hck
    simp [runOp, PullTransactions, hck, Op.decodeResponse]

/-- Witness for C8: `RegisterURL` on a status-500 response whose body has
the success shape returns that decoded success value, with no error. -/
theorem non_push_ops_decode_regardless_of_status_witness :
    (runOp Op.registerURL testClock NewMpesa registerURLValidPayload
        (fun _ => ⟨500, Json.obj
          [("OriginatorCoversationID", Json.str "7551-1156-3"),
           ("ResultCode", Json.str "1"),
           ("ResponseDescription", Json.str "failed")]⟩)).result =
      .ok ⟨"7551-1156-3", "1", "failed"⟩ := by
  rw [non_push_ops_decode_regardless_of_status Op.registerURL (by decide)
    testClock NewMpesa registerURLValidPayload (by decide) 500
    (Json.obj
      [("OriginatorCoversationID", Json.str "7551-1156-3"),
       ("ResultCode", Json.str "1"),
       ("ResponseDescription", Json.str "failed")])]
  rfl

/-- C9: For every payload accepted by `B2CSend`, the request is sent to
`/mpesa/b2c/v1/paymentrequest` and its body's `CommandID` is the constant
`PromotionPayment`; a caller-supplied `CommandID` is discarded, since
`CommandID` is not among `B2CSend`'s required keys and the constant is
injected after the key filter. -/
theorem b2cSend_commandID_promotionPayment (clock : Clock) (m : Mpesa)
    (payload : List (String × GoValue)) (transport : Transport)
    (hall : ∀ k ∈ b2cSendRequiredKeys, (lookupKV payload k).isSome) :
    ∃ req, (B2CSend clock m payload transport).calls = [req] ∧
      req.url = m.baseURL ++ "/mpesa/b2c/v1/paymentrequest" ∧
      jsonLookup req.body "CommandID" = some (.str "PromotionPayment") := by
  obtain ⟨c, hck, _⟩ := CheckKeys_ok b2cSendRequiredKeys payload hall
  simp only [B2CSend, hck]
  refine ⟨_, rfl, rfl, ?_⟩
  rw [jsonLookup_marshalMap, lookupKV_eraseKV_ne _ _ _ (by decide),
    lookupKV_insertKV_self]
  rfl

/-- Witness for C9: a valid `B2CSend` payload that carries
`CommandID = BusinessPayment` still produces a wire body with
`CommandID = PromotionPayment`. -/
theorem b2cSend_commandID_promotionPayment_witness :
    (∃ req, (B2CSend testClock NewMpesa b2cPayloadWithCommandID
        nullTransport).calls = [req] ∧
      req.url = NewMpesa.baseURL ++ "/mpesa/b2c/v1/paymentrequest" ∧
      jsonLookup req.body "CommandID" = some (.str "PromotionPayment")) ∧
    lookupKV b2cPayloadWithCommandID "CommandID" =
      some (.str "BusinessPayment") :=
  ⟨b2cSend_commandID_promotionPayment testClock NewMpesa
    b2cPayloadWithCommandID nullTransport (by decide), by decide⟩

/-- C5 (amended): For every payload accepted by `STKPush`, the wire payload
contains the fixed constant `TransactionType = CustomerPayBillOnline` and a
freshly computed timestamp under the key `Timestamp`; the `Password` entry
is the caller-supplied value carried through unchanged — the client does not
compute or inject an encoded password (`EncodePassword` is a caller-side
utility). -/
theorem stkPush_wire_payload_fields (clock : Clock) (m : Mpesa)
    (payload : List (String × GoValue)) (transport : Transport) (v : GoValue)
    (hall : ∀ k ∈ stkPushRequiredKeys, (lookupKV payload k).isSome)
    (hpw : lookupKV payload "Password" = some v) :
    ∃ req, (STKPush clock m payload transport).calls = [req] ∧
      jsonLookup req.body "TransactionType" =
        some (.str "CustomerPayBillOnline") ∧
      jsonLookup req.body "Timestamp" = some (.str (GetTimestamp clock)) ∧
      jsonLookup req.body "Password" = some v.toJson := by
  obtain ⟨c, hck, hchar⟩ := CheckKeys_ok stkPushRequiredKeys payload hall
  have hcpw : lookupKV c "Password" = some v := by
    rw [hchar, if_pos (by decide)]; exact hpw
  simp only [STKPush, hck]
  refine ⟨_, rfl, ?_, ?_, ?_⟩
  · rw [jsonLookup_marshalMap, lookupKV_eraseKV_ne _ _ _ (by decide),
      lookupKV_insertKV_ne _ _ _ _ (by decide), lookupKV_insertKV_self]
    rfl
  · rw [jsonLookup_marshalMap, lookupKV_eraseKV_ne _ _ _ (by decide),
      lookupKV_insertKV_self]
    rfl
  · rw [jsonLookup_marshalMap, lookupKV_eraseKV_ne _ _ _ (by decide),
      lookupKV_insertKV_ne _ _ _ _ (by decide),
      lookupKV_insertKV_ne _ _ _ _ (by decide), hcpw]
    rfl

/-- Witness for C5 (amended): the concrete valid `STKPush` payload produces
a wire body with the constant transaction type, the frozen clock's
timestamp, and the caller's own password value. -/
theorem stkPush_wire_payload_fields_witness :
    ∃ req, (STKPush testClock NewMpesa stkValidPayload
        nullTransport).calls = [req] ∧
      jsonLookup req.body "TransactionType" =
        some (.str "CustomerPayBillOnline") ∧
      jsonLookup req.body "Timestamp" = some (.str "20240102030405") ∧
      jsonLookup req.body "Password" = some (.str "encoded_password") := by
  obtain ⟨req, h1, h2, h3, h4⟩ := stkPush_wire_payload_fields testClock
    NewMpesa stkValidPayload nullTransport (GoValue.str "encoded_password")
    (by decide) (by decide)
  refine ⟨req, h1, h2, ?_, ?_⟩
  · rw [h3]; rfl
  · rw [h4]; rfl

/-- Counterexample for C5 as stated: a valid `STKPush` payload whose
`Password` value is the empty string yields a wire body whose `Password`
entry is that same empty string, which no run of `EncodePassword` (for any
clock, shortcode and passkey) can produce — so the wire payload does not
contain an encoded password injected for the operation. -/
theorem stkPush_no_password_injection :
    stkEmptyPasswordCall.calls.map (fun req => jsonLookup req.body "Password")
      = [some (.str "")] ∧
    ¬ ∃ (c : Clock) (sc pk : String),
      stkEmptyPasswordCall.calls.map
          (fun req => jsonLookup req.body "Password")
        = [some (.str (EncodePassword c sc pk))] := by
  have hr : stkEmptyPasswordCall.calls.map
      (fun req => jsonLookup req.body "Password") = [some (Json.str "")] :=
    rfl
  refine ⟨hr, ?_⟩
  rintro ⟨c, sc, pk, h⟩
  rw [hr] at h
  simp only [List.cons.injEq, Option.some.injEq, Json.str.injEq,
    and_true] at h
  exact EncodePassword_ne_empty c sc pk h.symm

/-- C2: On a non-200 response whose body is the nested callback-error
envelope, `STKPush` does not return an error carrying the envelope's result
code and description: it decodes the success shape regardless of the status
code and returns a zero-valued successful `STKPushResponse` — even though
the envelope itself decodes cleanly into the (unused) `types.STKPushError`
shape, whose result code and description the claim expects surfaced. -/
theorem stkPush_error_envelope_yields_ok :
    (STKPush testClock NewMpesa stkValidPayload stkErrorTransport).result =
      .ok ⟨"", "", "", "", ""⟩ ∧
    decodeSTKPushError stkErrorEnvelope =
      .ok ⟨⟨⟨"29115-34620561-1", "ws_CO_191220191020363925", "1032",
        "Request canceled by user."⟩⟩⟩ :=
  ⟨rfl, rfl⟩

end MpesaGo
